import Mathlib

/-!
Verification development for the Windows adapter layer of the qwin widget
toolkit (`src/qwin/UIWindows.h`).  The header carries the class layouts and
every inline method body; method bodies that live only in the (absent)
implementation file are modelled from the specification and are marked
`Modelled from the spec:` in their doc comments.

Native handles (HWND, HBRUSH, HPEN, HFONT, HMENU, timer ids) are modelled as
natural numbers; a nullable handle is `Option Nat` with `none` playing the
role of NULL.
-/

/-- Error taxonomy of the adapter layer (spec section 7): handle-creation
failure, lookup miss, graphics state error.  `UnsupportedOperation` is
documented as an explicit no-op, not an error, so it has no constructor. -/
inductive UIError where
  | creationError : UIError
  | lookupMiss : UIError
  | stateError : UIError
deriving DecidableEq, Repr

/-- State held by `WindowsComponent`, the base adapter class
(UIWindows.h lines 293-341): the native window handle `mHandle` (NULL until
materialized) and the subclassed window procedure `mWindowProc`. -/
structure WindowsComponentState where
  mHandle : Option Nat
  mWindowProc : Option Nat
deriving DecidableEq, Repr

/-- State of `WindowsStatic` (UIWindows.h lines 349-379): the base adapter
state plus the back reference `mStatic` to the logical widget and the
`mAutoColor` flag. -/
structure WindowsStaticState where
  base : WindowsComponentState
  mStatic : Nat
  mAutoColor : Bool
deriving DecidableEq, Repr

/-- State of `WindowsPanel` (UIWindows.h lines 387-410). -/
structure WindowsPanelState where
  base : WindowsComponentState
  mPanel : Nat
deriving DecidableEq, Repr

/-- State of `WindowsButton` (UIWindows.h lines 418-449). -/
structure WindowsButtonState where
  base : WindowsComponentState
  mButton : Nat
deriving DecidableEq, Repr

/-- State of `WindowsRadioButton` (UIWindows.h lines 457-489). -/
structure WindowsRadioButtonState where
  base : WindowsComponentState
  mButton : Nat
deriving DecidableEq, Repr

/-- State of `WindowsRadios`, the radio-group adapter
(UIWindows.h lines 497-554). -/
structure WindowsRadiosState where
  base : WindowsComponentState
  mRadios : Nat
deriving DecidableEq, Repr

/-- State of `WindowsCheckbox` (UIWindows.h lines 562-594). -/
structure WindowsCheckboxState where
  base : WindowsComponentState
  mCheckbox : Nat
deriving DecidableEq, Repr

/-- State of `WindowsComboBox` (UIWindows.h lines 602-638). -/
structure WindowsComboBoxState where
  base : WindowsComponentState
  mComboBox : Nat
deriving DecidableEq, Repr

/-- State of `WindowsListBox` (UIWindows.h lines 646-681). -/
structure WindowsListBoxState where
  base : WindowsComponentState
  mListBox : Nat
deriving DecidableEq, Repr

/-- State of `WindowsGroupBox` (UIWindows.h lines 689-715). -/
structure WindowsGroupBoxState where
  base : WindowsComponentState
  mGroupBox : Nat
deriving DecidableEq, Repr

/-- State of `WindowsText` (UIWindows.h lines 723-753). -/
structure WindowsTextState where
  base : WindowsComponentState
  mText : Nat
deriving DecidableEq, Repr

/-- State of `WindowsTextArea` (UIWindows.h lines 761-777), which extends
`WindowsText` and adds no fields. -/
structure WindowsTextAreaState where
  toText : WindowsTextState
deriving DecidableEq, Repr

/-- State of `WindowsToolBar` (UIWindows.h lines 785-809). -/
structure WindowsToolBarState where
  base : WindowsComponentState
  mToolBar : Nat
deriving DecidableEq, Repr

/-- State of `WindowsStatusBar` (UIWindows.h lines 817-843). -/
structure WindowsStatusBarState where
  base : WindowsComponentState
  mStatusBar : Nat
deriving DecidableEq, Repr

/-- State of `WindowsTabbedPane` (UIWindows.h lines 851-885). -/
structure WindowsTabbedPaneState where
  base : WindowsComponentState
  mTabbedPane : Nat
deriving DecidableEq, Repr

/-- State of `WindowsTable` (UIWindows.h lines 893-932). -/
structure WindowsTableState where
  base : WindowsComponentState
  mTable : Nat
  mColumnWidths : List Nat
  mDefaultColumnFont : Option Nat
  mDefaultCellFont : Option Nat
  mHeaderHeight : Int
deriving DecidableEq, Repr

/-- State of `WindowsTree` (UIWindows.h lines 940-965). -/
structure WindowsTreeState where
  base : WindowsComponentState
  mTree : Nat
deriving DecidableEq, Repr

/-- State of `WindowsScrollBar` (UIWindows.h lines 973-1000). -/
structure WindowsScrollBarState where
  base : WindowsComponentState
  mScrollBar : Nat
deriving DecidableEq, Repr

/-- State of `WindowsWindow` (UIWindows.h lines 1008-1100), restricted to the
fields relevant to the claims under verification. -/
structure WindowsWindowState where
  base : WindowsComponentState
  mWindow : Nat
  mChild : Bool
deriving DecidableEq, Repr

/-- State of `WindowsHostFrame` (UIWindows.h lines 1108-1134). -/
structure WindowsHostFrameState where
  toWindow : WindowsWindowState
deriving DecidableEq, Repr

/-- State of `WindowsDialog` (UIWindows.h lines 1142-1165). -/
structure WindowsDialogState where
  toWindow : WindowsWindowState
deriving DecidableEq, Repr

/-- State of `WindowsMenuItem` (UIWindows.h lines 1176-1227). -/
structure WindowsMenuItemState where
  base : WindowsComponentState
  mItem : Nat
  mMenuHandle : Option Nat
  mCreated : Bool
deriving DecidableEq, Repr

/-! ## isNativeParent, per concrete adapter

Each of the following bodies is inline in the header; each ignores every
field of `this`, so the embedding ignores its state argument. -/

/-- Embedding of `WindowsStatic::isNativeParent` (UIWindows.h lines 370-373):
"on Windows statics are always parents" — returns true. -/
def WindowsStatic.isNativeParent (_s : WindowsStaticState) : Bool := true

/-- Embedding of `WindowsButton::isNativeParent` (UIWindows.h lines 442-444). -/
def WindowsButton.isNativeParent (_s : WindowsButtonState) : Bool := false

/-- Embedding of `WindowsRadioButton::isNativeParent` (UIWindows.h lines 478-480). -/
def WindowsRadioButton.isNativeParent (_s : WindowsRadioButtonState) : Bool := false

/-- Embedding of `WindowsRadios::isNativeParent` (UIWindows.h lines 517-519). -/
def WindowsRadios.isNativeParent (_s : WindowsRadiosState) : Bool := false

/-- Embedding of `WindowsCheckbox::isNativeParent` (UIWindows.h lines 581-583). -/
def WindowsCheckbox.isNativeParent (_s : WindowsCheckboxState) : Bool := false

/-- Embedding of `WindowsComboBox::isNativeParent` (UIWindows.h lines 629-631). -/
def WindowsComboBox.isNativeParent (_s : WindowsComboBoxState) : Bool := false

/-- Embedding of `WindowsListBox::isNativeParent` (UIWindows.h lines 674-676). -/
def WindowsListBox.isNativeParent (_s : WindowsListBoxState) : Bool := false

/-- Embedding of `WindowsGroupBox::isNativeParent` (UIWindows.h lines 708-710). -/
def WindowsGroupBox.isNativeParent (_s : WindowsGroupBoxState) : Bool := false

/-- Embedding of `WindowsText::isNativeParent` (UIWindows.h lines 746-748). -/
def WindowsText.isNativeParent (_s : WindowsTextState) : Bool := false

/-- Embedding of `WindowsTextArea::isNativeParent` (UIWindows.h lines 772-774). -/
def WindowsTextArea.isNativeParent (_s : WindowsTextAreaState) : Bool := false

/-- Embedding of `WindowsToolBar::isNativeParent` (UIWindows.h lines 802-804). -/
def WindowsToolBar.isNativeParent (_s : WindowsToolBarState) : Bool := false

/-- Embedding of `WindowsStatusBar::isNativeParent` (UIWindows.h lines 835-837). -/
def WindowsStatusBar.isNativeParent (_s : WindowsStatusBarState) : Bool := false

/-- Embedding of `WindowsTabbedPane::isNativeParent` (UIWindows.h lines 872-878):
"This feels like it should be true but apparently not" — returns false. -/
def WindowsTabbedPane.isNativeParent (_s : WindowsTabbedPaneState) : Bool := false

/-- Embedding of `WindowsTable::isNativeParent` (UIWindows.h lines 920-922). -/
def WindowsTable.isNativeParent (_s : WindowsTableState) : Bool := false

/-- Embedding of `WindowsTree::isNativeParent` (UIWindows.h lines 957-959). -/
def WindowsTree.isNativeParent (_s : WindowsTreeState) : Bool := false

/-- Embedding of `WindowsScrollBar::isNativeParent` (UIWindows.h lines 992-994). -/
def WindowsScrollBar.isNativeParent (_s : WindowsScrollBarState) : Bool := false

/-- Embedding of `WindowsWindow::isNativeParent` (UIWindows.h lines 1045-1047). -/
def WindowsWindow.isNativeParent (_s : WindowsWindowState) : Bool := true

/-- Embedding of `WindowsHostFrame::isNativeParent` (UIWindows.h lines 1123-1125). -/
def WindowsHostFrame.isNativeParent (_s : WindowsHostFrameState) : Bool := true

/-- Embedding of `WindowsDialog::isNativeParent` (UIWindows.h lines 1157-1159). -/
def WindowsDialog.isNativeParent (_s : WindowsDialogState) : Bool := true

/-- Embedding of `WindowsMenuItem::isNativeParent` (UIWindows.h lines 1202-1204). -/
def WindowsMenuItem.isNativeParent (_s : WindowsMenuItemState) : Bool := false

/-! ## Explicit no-op capability operations (C2)

`WindowsRadioButton` and `WindowsCheckbox` declare `setText` and `click` as
explicit empty bodies in the header (lines 481-484 and 585-588).  Each is
embedded as a capability call returning `Except UIError` so that "returns
normally, raises no error" is part of the result. -/

/-- Embedding of `WindowsRadioButton::setText(const char*)` (UIWindows.h lines 481-482):
declared with an empty body — an explicit no-op. -/
def WindowsRadioButton.setText (s : WindowsRadioButtonState) (_text : String) :
    Except UIError WindowsRadioButtonState := .ok s

/-- Embedding of `WindowsRadioButton::click()` (UIWindows.h lines 483-484):
declared with an empty body — an explicit no-op. -/
def WindowsRadioButton.click (s : WindowsRadioButtonState) :
    Except UIError WindowsRadioButtonState := .ok s

/-- Embedding of `WindowsCheckbox::setText(const char*)` (UIWindows.h lines 585-586):
declared with an empty body — an explicit no-op. -/
def WindowsCheckbox.setText (s : WindowsCheckboxState) (_text : String) :
    Except UIError WindowsCheckboxState := .ok s

/-- Embedding of `WindowsCheckbox::click()` (UIWindows.h lines 587-588):
declared with an empty body — an explicit no-op. -/
def WindowsCheckbox.click (s : WindowsCheckboxState) :
    Except UIError WindowsCheckboxState := .ok s

/-! ## WindowsRadios state-independent queries (C10) -/

/-- Embedding of `WindowsRadios::isOpen` (UIWindows.h lines 520-522): inline body
`return true`, overriding `WindowsComponent::isOpen`; ignores all state. -/
def WindowsRadios.isOpen (_s : WindowsRadiosState) : Bool := true

/-- Embedding of `WindowsRadios::isEnabled` (UIWindows.h lines 540-542): inline body
`return false`; ignores all state. -/
def WindowsRadios.isEnabled (_s : WindowsRadiosState) : Bool := false

/-- Embedding of `WindowsRadios::isVisible` (UIWindows.h lines 545-547): inline body
`return false`; ignores all state. -/
def WindowsRadios.isVisible (_s : WindowsRadiosState) : Bool := false

/-! ## Resource cache: colors and pens (C4) -/

/-- Constant `MAX_PEN_WIDTH` (UIWindows.h line 49): the pen cache of a `WindowsColor`
holds at most this many pens, one per stroke width. -/
def MAX_PEN_WIDTH : Nat := 4

/-- State of `WindowsColor` (UIWindows.h lines 51-68): logical color back
reference, lazily created brush handle, and the fixed pen array
`HPEN mPens[MAX_PEN_WIDTH]` indexed by stroke width. -/
structure WindowsColorState where
  mColor : Nat
  mBrush : Option Nat
  mPens : List (Option Nat)
deriving DecidableEq, Repr

/-- Modelled from the spec: the width-clamping step of
`WindowsColor::getPen(int width)`, whose body is not under src/.  The spec
says the width is clamped to a fixed maximum stroke set; widths below the
minimum stroke of 1 are raised to 1 and widths above `MAX_PEN_WIDTH` are
lowered to `MAX_PEN_WIDTH`, and the pen for width w is stored at array
slot w - 1. -/
def WindowsColor.penIndex (width : Int) : Nat :=
  let w : Int :=
    if width < 1 then 1
    else if (MAX_PEN_WIDTH : Int) < width then (MAX_PEN_WIDTH : Int)
    else width
  (w - 1).toNat

/-- Modelled from the spec: `WindowsColor::getPen(int width)` — returns the
cached pen for the clamped width, creating and caching it on first use.
`fresh` stands for the handle the native pen-creation call would return. -/
def WindowsColor.getPen (s : WindowsColorState) (width : Int) (fresh : Nat) :
    Nat × WindowsColorState :=
  let i := WindowsColor.penIndex width
  match s.mPens.getD i none with
  | some p => (p, s)
  | none => (fresh, { s with mPens := s.mPens.set i (some fresh) })

/-! ## Window lifecycle (C6) -/

/-- Window lifecycle states (spec section 4.4):
UNMATERIALIZED → OPEN → CLOSING → CLOSED. -/
inductive WindowLifecycle where
  | unmaterialized : WindowLifecycle
  | opened : WindowLifecycle
  | closing : WindowLifecycle
  | closed : WindowLifecycle
deriving DecidableEq, Repr

/-- Modelled from the spec: the state transition performed by
`WindowsWindow::close` (declared at UIWindows.h line 1025, body not under
src/).  An open window enters CLOSING; `close()` is idempotent beyond
CLOSING, and an unmaterialized window has nothing to close. -/
def WindowsWindow.closeStep : WindowLifecycle → WindowLifecycle
  | .opened => .closing
  | st => st

/-! ## Graphics context save/restore (C3) -/

/-- The drawing state of a Graphics Context that `save()`/`restore()`
snapshot: the current pen, brush, and font selection (spec section 4.2). -/
structure DrawState where
  pen : Nat
  brush : Nat
  font : Nat
deriving DecidableEq, Repr

/-- Modelled from the spec: the save/restore-relevant state of
`WindowsGraphics` (`save`/`restore` are declared at UIWindows.h lines
168-169, bodies not under src/): the current drawing state plus the stack of
snapshots taken by `save()` and not yet consumed by `restore()`. -/
structure GraphicsState where
  cur : DrawState
  saveStack : List DrawState
deriving DecidableEq, Repr

/-- Operations on a Graphics Context that touch the saved drawing state:
`save`, `restore`, and the selection setters (UIWindows.h lines 168-173). -/
inductive GraphicsOp where
  | save : GraphicsOp
  | restore : GraphicsOp
  | setPen : Nat → GraphicsOp
  | setBrush : Nat → GraphicsOp
  | setFont : Nat → GraphicsOp
deriving DecidableEq, Repr

/-- Modelled from the spec: one Graphics Context operation.  `save` pushes a
snapshot of the current pen/brush/font; `restore` pops the most recent
snapshot back into the current state; a `restore` with no matching `save` is
a debug-only assertion, not a runtime fault, so it leaves the state
unchanged; the setters replace one component of the current selection. -/
def WindowsGraphics.applyOp (g : GraphicsState) : GraphicsOp → GraphicsState
  | .save => { g with saveStack := g.cur :: g.saveStack }
  | .restore =>
    match g.saveStack with
    | [] => g
    | top :: rest => { cur := top, saveStack := rest }
  | .setPen p => { g with cur := { g.cur with pen := p } }
  | .setBrush b => { g with cur := { g.cur with brush := b } }
  | .setFont f => { g with cur := { g.cur with font := f } }

/-- Runs a sequence of Graphics Context operations left to right. -/
def WindowsGraphics.runOps (g : GraphicsState) : List GraphicsOp → GraphicsState
  | [] => g
  | op :: rest => WindowsGraphics.runOps (WindowsGraphics.applyOp g op) rest

/-- Pairing discipline: `GraphicsOp.balancedFrom d ops` holds when, starting with d pending
saves, every `restore` in ops has a matching earlier `save` and ops ends
with no pending save: the pairing discipline the spec demands of
`save()`/`restore()` sequences. -/
def GraphicsOp.balancedFrom : Nat → List GraphicsOp → Bool
  | d, [] => d == 0
  | d, .save :: rest => GraphicsOp.balancedFrom (d + 1) rest
  | d, .restore :: rest => decide (0 < d) && GraphicsOp.balancedFrom (d - 1) rest
  | d, .setPen _ :: rest => GraphicsOp.balancedFrom d rest
  | d, .setBrush _ :: rest => GraphicsOp.balancedFrom d rest
  | d, .setFont _ :: rest => GraphicsOp.balancedFrom d rest

/-! ## Text measurement via font metrics (C5) -/

/-- A logical font value: face name and point size. -/
structure FontSpec where
  face : String
  pointSize : Nat
deriving DecidableEq, Repr

/-- Font metrics as carried by a TEXTMETRIC record (UIWindows.h lines
129-148): the per-font quantities text measurement reads. -/
structure FontMetricRecord where
  avgWidth : Nat
  height : Nat
deriving DecidableEq, Repr

/-- Modelled from the spec: the platform's font-metric query, a fixed
deterministic function of the logical font value.  The concrete numbers are
immaterial to the claims; only functional dependence on the font matters. -/
def systemFontMetrics (f : FontSpec) : FontMetricRecord :=
  { avgWidth := f.pointSize / 2 + 1, height := f.pointSize + 2 }

/-- A width/height pair, the `Dimension` out-parameter of `getTextSize`
(UIWindows.h lines 196-197). -/
structure TextDim where
  width : Nat
  height : Nat
deriving DecidableEq, Repr

/-- Modelled from the spec: the text-measurement state of a Graphics
Context: the Resource Cache's font-metric entries, the currently selected
font, and the drawing surface, recorded as the log of primitives drawn so
far (measurement must not draw). -/
structure TextGraphicsState where
  fontCache : List (FontSpec × FontMetricRecord)
  curFont : FontSpec
  surface : List String
deriving DecidableEq, Repr

/-- Modelled from the spec: `fontFor(font)` of the Resource Cache — returns
the process-cached metrics for the font, creating and caching the entry on
first use. -/
def fontFor (s : TextGraphicsState) (f : FontSpec) :
    FontMetricRecord × TextGraphicsState :=
  match s.fontCache.find? (fun e => decide (e.1 = f)) with
  | some e => (e.2, s)
  | none =>
    let m := systemFontMetrics f
    (m, { s with fontCache := (f, m) :: s.fontCache })

/-- Modelled from the spec: `WindowsGraphics::getTextSize` (declared at
UIWindows.h lines 196-197, body not under src/) — measures a string under
the specified font, or the current font when none is given, via the Resource
Cache's font metrics, without drawing to the surface. -/
def WindowsGraphics.getTextSize (s : TextGraphicsState) (text : String)
    (f : Option FontSpec) : TextDim × TextGraphicsState :=
  let font := f.getD s.curFont
  let (m, s') := fontFor s font
  ({ width := text.length * m.avgWidth, height := m.height }, s')

/-! ## Timer registry (C7) -/

/-- Modelled from the spec: the process-wide Timer Registry behind
`WindowsTimer` (UIWindows.h lines 106-121) — an association list from native
timer id to logical timer object, plus the native id allocator. -/
structure TimerRegistry where
  entries : List (Nat × Nat)
  nextId : Nat
deriving DecidableEq, Repr

/-- Modelled from the spec: `WindowsTimer::getTimer(int id)` (declared at UIWindows.h line 115, body
not under src/).  Modelled from the spec: the static lookup from native
timer id to the logical timer object, used by the dispatcher to route native
timer-fired messages. -/
def TimerRegistry.getTimer (r : TimerRegistry) (id : Nat) : Option Nat :=
  (r.entries.find? (fun e => decide (e.1 = id))).map (fun e => e.2)

/-- Modelled from the spec: starting a logical timer — a fresh native id is
allocated and the (id, timer) entry is added to the registry. -/
def TimerRegistry.startTimer (r : TimerRegistry) (t : Nat) :
    Nat × TimerRegistry :=
  (r.nextId, { entries := (r.nextId, t) :: r.entries, nextId := r.nextId + 1 })

/-- Modelled from the spec: stopping a timer removes its registry entry. -/
def TimerRegistry.stopTimer (r : TimerRegistry) (id : Nat) : TimerRegistry :=
  { r with entries := r.entries.filter (fun e => decide (e.1 ≠ id)) }

/-- Modelled from the spec: a native timer-fired message for id — the entry
is removed when the timer is non-repeating, and kept when it repeats. -/
def TimerRegistry.fireTimer (r : TimerRegistry) (id : Nat) (repeats : Bool) :
    TimerRegistry :=
  if repeats then r else r.stopTimer id

/-! ## Nested modal dialog loops (C8) -/

/-- Modelled from the spec: the course of one dialog's modal session.  A
session either closes directly, or opens a child dialog, runs the child's
whole modal session, and continues with the rest of its own session —
nesting to unbounded depth. -/
inductive ModalScript where
  | closeSelf : ModalScript
  | openChild : Nat → ModalScript → ModalScript → ModalScript
deriving DecidableEq, Repr

/-- Modelled from the spec: the nested modal loop of `WindowsDialog`
(`show`/`modalEventLoop`, UIWindows.h lines 1150 and 1163, bodies not under
src/), over the stack of currently open modal dialogs, innermost first.
`closeSelf` closes the innermost dialog and exits its loop; `openChild`
pushes the child, runs the child's session to completion, then resumes the
current loop level. -/
def WindowsDialog.runModalLoop : ModalScript → List Nat → List Nat
  | .closeSelf, stack => stack.tail
  | .openChild c cs rest, stack =>
    WindowsDialog.runModalLoop rest (WindowsDialog.runModalLoop cs (c :: stack))

/-- Modelled from the spec: `Dialog::show()` — opens dialog d (pushing it on
the open-dialog stack), enters its nested modal loop, and returns the stack
as it stands when control comes back to the caller. -/
def WindowsDialog.show (d : Nat) (script : ModalScript) (stack : List Nat) :
    List Nat :=
  WindowsDialog.runModalLoop script (d :: stack)

/-! ## Component adapter handle lifecycle (C1) -/

/-- Modelled from the spec: the adapter table of the component layer.
`handles` holds, per Component Adapter, its native handle field (`mHandle`,
UIWindows.h line 338; none = NULL, not yet materialized); `liveObjects` is
the set of currently live native objects; `releaseLog` records every release
(native destroy call) ever issued; `nextHandle` is the native allocator,
which never hands out the same handle twice. -/
structure AdapterSystem where
  handles : List (Option Nat)
  liveObjects : List Nat
  releaseLog : List Nat
  nextHandle : Nat
deriving DecidableEq, Repr

/-- The native handle field of adapter i (NULL when out of range). -/
def AdapterSystem.handleAt (s : AdapterSystem) (i : Nat) : Option Nat :=
  s.handles.getD i none

/-- Modelled from the spec: `materialize()` — creates the native handle for
adapter i from the native allocator; a no-op if the adapter is already
materialized. -/
def AdapterSystem.materialize (s : AdapterSystem) (i : Nat) : AdapterSystem :=
  if i < s.handles.length then
    match s.handles.getD i none with
    | some _ => s
    | none =>
      { handles := s.handles.set i (some s.nextHandle)
        liveObjects := s.nextHandle :: s.liveObjects
        releaseLog := s.releaseLog
        nextHandle := s.nextHandle + 1 }
  else s

/-- Modelled from the spec: destroying the Logical Widget bound to adapter i
— releases the adapter's native handle (destroying the native object and
recording the release) and nulls the handle field; a no-op if the adapter
was never materialized. -/
def AdapterSystem.destroy (s : AdapterSystem) (i : Nat) : AdapterSystem :=
  match s.handles.getD i none with
  | none => s
  | some h =>
    { handles := s.handles.set i none
      liveObjects := s.liveObjects.filter (fun x => decide (x ≠ h))
      releaseLog := h :: s.releaseLog
      nextHandle := s.nextHandle }

/-- The adapter-table invariant (spec section 3): every non-null handle
occupies exactly one slot (never shared between two adapters), refers to a
live native object, has never been released, and came from the allocator;
live objects are distinct, below the allocator, and every recorded release
is below the allocator. -/
def AdapterSystem.wf (s : AdapterSystem) : Prop :=
  (∀ h ∈ s.handles.filterMap id,
      s.handles.count (some h) = 1 ∧ h ∈ s.liveObjects ∧
      s.releaseLog.count h = 0 ∧ h < s.nextHandle) ∧
  (∀ h ∈ s.liveObjects, h < s.nextHandle) ∧
  s.liveObjects.Nodup ∧
  (∀ h ∈ s.releaseLog, h < s.nextHandle)

instance (s : AdapterSystem) : Decidable s.wf := by
  unfold AdapterSystem.wf
  infer_instance

/-! ## Theorems -/


/-- C10: for every radio-group adapter state — including any state in which
open() has never been called (mHandle still NULL) — isOpen() returns true
while isEnabled() and isVisible() both return false, and none of these
answers depends on the adapter's state. -/
theorem radios_state_independent_queries :
    ∀ s : WindowsRadiosState,
      WindowsRadios.isOpen s = true ∧
      WindowsRadios.isEnabled s = false ∧
      WindowsRadios.isVisible s = false ∧
      (∀ t : WindowsRadiosState,
        WindowsRadios.isOpen s = WindowsRadios.isOpen t ∧
        WindowsRadios.isEnabled s = WindowsRadios.isEnabled t ∧
        WindowsRadios.isVisible s = WindowsRadios.isVisible t) :=
  fun _ => ⟨rfl, rfl, rfl, fun _ => ⟨rfl, rfl, rfl⟩⟩

/-- C2: the capability operations the radio-button and checkbox adapters do
not override (setText and click) are declared as explicit no-ops: invoking
them returns normally with no error and leaves the adapter's state
unchanged. -/
theorem noop_capability_ops_identity :
    ∀ (rb : WindowsRadioButtonState) (cb : WindowsCheckboxState) (text : String),
      WindowsRadioButton.setText rb text = Except.ok rb ∧
      WindowsRadioButton.click rb = Except.ok rb ∧
      WindowsCheckbox.setText cb text = Except.ok cb ∧
      WindowsCheckbox.click cb = Except.ok cb :=
  fun _ _ _ => ⟨rfl, rfl, rfl, rfl⟩

/-- C6: close() is idempotent beyond the CLOSING state — once a window has
reached CLOSING or CLOSED, any further call to close() leaves the window's
lifecycle state unchanged. -/
theorem window_close_idempotent_beyond_closing :
    ∀ st : WindowLifecycle, (st = .closing ∨ st = .closed) →
      WindowsWindow.closeStep st = st := by
  intro st h
  rcases h with h | h <;> subst h <;> rfl

/-- Witness for C6: the CLOSING state is beyond CLOSING, and close() leaves
it unchanged. -/
theorem window_close_idempotent_beyond_closing_witness :
    (WindowLifecycle.closing = .closing ∨ WindowLifecycle.closing = .closed) ∧
    WindowsWindow.closeStep .closing = .closing :=
  ⟨Or.inl rfl,
   window_close_idempotent_beyond_closing .closing (Or.inl rfl)⟩

/-- A dialog's modal session hands the open-dialog stack back to its caller
exactly as the caller left it: every nested modal loop level fully unwinds,
at any nesting depth. -/
theorem modal_show_returns_caller_stack :
    ∀ (script : ModalScript) (d : Nat) (stack : List Nat),
      WindowsDialog.show d script stack = stack := by
  intro script
  induction script with
  | closeSelf => intro d stack; rfl
  | openChild c cs rest ihcs ihrest =>
    intro d stack
    have h1 := ihcs c (d :: stack)
    have h2 := ihrest d stack
    unfold WindowsDialog.show at h1 h2 ⊢
    rw [WindowsDialog.runModalLoop, h1, h2]

/-- C8: opening Dialog B from within Dialog A's modal loop and closing B
returns control to A's loop with A still open (A is back on top of the
open-dialog stack), and A's own session — whatever further nesting `rest`
performs — fully unwinds to the caller's stack, for unbounded nesting
depth. -/
theorem nested_modal_loops_unwind :
    ∀ (a b : Nat) (bScript rest : ModalScript) (stack : List Nat),
      WindowsDialog.show b bScript (a :: stack) = a :: stack ∧
      WindowsDialog.show a (ModalScript.openChild b bScript rest) stack = stack :=
  fun a b bScript rest stack =>
    ⟨modal_show_returns_caller_stack bScript b (a :: stack),
     modal_show_returns_caller_stack (ModalScript.openChild b bScript rest) a stack⟩

/-- C4: penFor clamps the requested stroke width so that the pen-array slot
is below MAX_PEN_WIDTH — the access into `mPens[MAX_PEN_WIDTH]` is in bounds
for every width argument, in particular for the full-sized pen array of a
`WindowsColor`. -/
theorem pen_width_clamped_in_bounds :
    ∀ (width : Int) (s : WindowsColorState), s.mPens.length = MAX_PEN_WIDTH →
      WindowsColor.penIndex width < MAX_PEN_WIDTH ∧
      WindowsColor.penIndex width < s.mPens.length := by
  intro width s hlen
  have h : WindowsColor.penIndex width < MAX_PEN_WIDTH := by
    simp only [WindowsColor.penIndex, MAX_PEN_WIDTH]
    split_ifs <;> omega
  exact ⟨h, by rw [hlen]; exact h⟩

/-- Witness for C4: a width request of 9 on a fully sized pen array lands in
bounds. -/
theorem pen_width_clamped_in_bounds_witness :
    ({ mColor := 0, mBrush := none,
       mPens := [none, none, none, none] } : WindowsColorState).mPens.length
        = MAX_PEN_WIDTH ∧
    (WindowsColor.penIndex 9 < MAX_PEN_WIDTH ∧
     WindowsColor.penIndex 9 <
       ({ mColor := 0, mBrush := none,
          mPens := [none, none, none, none] } : WindowsColorState).mPens.length) :=
  ⟨by decide,
   pen_width_clamped_in_bounds 9
     { mColor := 0, mBrush := none, mPens := [none, none, none, none] }
     (by decide)⟩

/-- C5: two calls to getTextSize with the same string and the same font
return identical dimensions, and neither call draws to the surface. -/
theorem getTextSize_two_run_agreement :
    ∀ (s : TextGraphicsState) (text : String) (f : Option FontSpec),
      (WindowsGraphics.getTextSize s text f).1 =
        (WindowsGraphics.getTextSize
          (WindowsGraphics.getTextSize s text f).2 text f).1 ∧
      (WindowsGraphics.getTextSize s text f).2.surface = s.surface ∧
      (WindowsGraphics.getTextSize
        (WindowsGraphics.getTextSize s text f).2 text f).2.surface = s.surface := by
  intro s text f
  unfold WindowsGraphics.getTextSize fontFor
  cases h : s.fontCache.find? (fun e => decide (e.1 = f.getD s.curFont)) with
  | some e => simp [h]
  | none => simp [h, List.find?_cons]

/-- Removing every registry entry whose key is id leaves the lookup of any
other key unchanged. -/
theorem find?_key_filter_ne :
    ∀ (l : List (Nat × Nat)) (id other : Nat), other ≠ id →
      (l.filter (fun e => decide (e.1 ≠ id))).find?
          (fun e => decide (e.1 = other)) =
        l.find? (fun e => decide (e.1 = other)) := by
  intro l id other hne
  induction l with
  | nil => rfl
  | cons e rest ih =>
    by_cases h1 : e.1 = id
    · have hdrop : (e :: rest).filter (fun e => decide (e.1 ≠ id)) =
          rest.filter (fun e => decide (e.1 ≠ id)) :=
        List.filter_cons_of_neg (by simp [h1])
      have hrhs : (e :: rest).find? (fun e => decide (e.1 = other)) =
          rest.find? (fun e => decide (e.1 = other)) :=
        List.find?_cons_of_neg _ (by simp [h1]; omega)
      rw [hdrop, hrhs, ih]
    · have hkeep : (e :: rest).filter (fun e => decide (e.1 ≠ id)) =
          e :: rest.filter (fun e => decide (e.1 ≠ id)) :=
        List.filter_cons_of_pos (by simp [h1])
      by_cases h2 : e.1 = other
      · have hl : (e :: rest.filter (fun e => decide (e.1 ≠ id))).find?
            (fun e => decide (e.1 = other)) = some e :=
          List.find?_cons_of_pos _ (by simp [h2])
        have hr : (e :: rest).find? (fun e => decide (e.1 = other)) = some e :=
          List.find?_cons_of_pos _ (by simp [h2])
        rw [hkeep, hl, hr]
      · have hl : (e :: rest.filter (fun e => decide (e.1 ≠ id))).find?
            (fun e => decide (e.1 = other)) =
              (rest.filter (fun e => decide (e.1 ≠ id))).find?
                (fun e => decide (e.1 = other)) :=
          List.find?_cons_of_neg _ (by simp [h2])
        have hr : (e :: rest).find? (fun e => decide (e.1 = other)) =
            rest.find? (fun e => decide (e.1 = other)) :=
          List.find?_cons_of_neg _ (by simp [h2])
        rw [hkeep, hl, hr, ih]

/-- After removing every registry entry whose key is id, looking id up
fails. -/
theorem find?_key_filter_self :
    ∀ (l : List (Nat × Nat)) (id : Nat),
      (l.filter (fun e => decide (e.1 ≠ id))).find?
        (fun e => decide (e.1 = id)) = none := by
  intro l id
  induction l with
  | nil => rfl
  | cons e rest ih =>
    by_cases h1 : e.1 = id
    · have hdrop : (e :: rest).filter (fun e => decide (e.1 ≠ id)) =
          rest.filter (fun e => decide (e.1 ≠ id)) :=
        List.filter_cons_of_neg (by simp [h1])
      rw [hdrop]
      exact ih
    · have hkeep : (e :: rest).filter (fun e => decide (e.1 ≠ id)) =
          e :: rest.filter (fun e => decide (e.1 ≠ id)) :=
        List.filter_cons_of_pos (by simp [h1])
      have hl : (e :: rest.filter (fun e => decide (e.1 ≠ id))).find?
          (fun e => decide (e.1 = id)) =
            (rest.filter (fun e => decide (e.1 ≠ id))).find?
              (fun e => decide (e.1 = id)) :=
        List.find?_cons_of_neg _ (by simp [h1])
      rw [hkeep, hl, ih]

/-- C7: the Timer Registry mapping — starting a logical timer creates an
entry under a fresh native id; getTimer on that id then returns exactly that
logical timer; the entry is removed when the timer stops or fires in
non-repeating mode, after which lookup of that id fails, while a repeating
fire keeps it; and stopping the timer does not disturb the mapping of any
other id. -/
theorem timer_registry_mapping :
    ∀ (r : TimerRegistry) (t : Nat),
      ((r.startTimer t).2).getTimer (r.startTimer t).1 = some t ∧
      (((r.startTimer t).2).stopTimer (r.startTimer t).1).getTimer
          (r.startTimer t).1 = none ∧
      (((r.startTimer t).2).fireTimer (r.startTimer t).1 false).getTimer
          (r.startTimer t).1 = none ∧
      (((r.startTimer t).2).fireTimer (r.startTimer t).1 true).getTimer
          (r.startTimer t).1 = some t ∧
      (∀ other, other ≠ (r.startTimer t).1 →
        (((r.startTimer t).2).stopTimer (r.startTimer t).1).getTimer other =
          r.getTimer other) := by
  intro r t
  refine ⟨?_, ?_, ?_, ?_, ?_⟩
  · simp [TimerRegistry.startTimer, TimerRegistry.getTimer]
  · simp only [TimerRegistry.startTimer, TimerRegistry.stopTimer,
      TimerRegistry.getTimer]
    rw [find?_key_filter_self]
    rfl
  · simp only [TimerRegistry.startTimer, TimerRegistry.fireTimer,
      TimerRegistry.stopTimer, TimerRegistry.getTimer, Bool.false_eq_true,
      if_false]
    rw [find?_key_filter_self]
    rfl
  · simp [TimerRegistry.startTimer, TimerRegistry.fireTimer,
      TimerRegistry.getTimer]
  · intro other hother
    simp only [TimerRegistry.startTimer] at hother
    simp only [TimerRegistry.startTimer, TimerRegistry.stopTimer,
      TimerRegistry.getTimer]
    have hdrop : ((r.nextId, t) :: r.entries).filter
        (fun e => decide (e.1 ≠ r.nextId)) =
          r.entries.filter (fun e => decide (e.1 ≠ r.nextId)) :=
      List.filter_cons_of_neg (by simp)
    rw [hdrop, find?_key_filter_ne r.entries r.nextId other hother]

/-- Witness for C7: in a registry already holding timer 77 under id 5, a
newly started timer 42 gets id 6, is found by getTimer, disappears after
stop and after a non-repeating fire, survives a repeating fire, and id 5
still maps to timer 77 after the stop. -/
theorem timer_registry_mapping_witness :
    ((({ entries := [(5, 77)], nextId := 6 } : TimerRegistry).startTimer
        42).2).getTimer 6 = some 42 ∧
    (((({ entries := [(5, 77)], nextId := 6 } : TimerRegistry).startTimer
        42).2).stopTimer 6).getTimer 6 = none ∧
    (((({ entries := [(5, 77)], nextId := 6 } : TimerRegistry).startTimer
        42).2).fireTimer 6 false).getTimer 6 = none ∧
    (((({ entries := [(5, 77)], nextId := 6 } : TimerRegistry).startTimer
        42).2).fireTimer 6 true).getTimer 6 = some 42 ∧
    (((({ entries := [(5, 77)], nextId := 6 } : TimerRegistry).startTimer
        42).2).stopTimer 6).getTimer 5 =
      ({ entries := [(5, 77)], nextId := 6 } : TimerRegistry).getTimer 5 := by
  have h := timer_registry_mapping { entries := [(5, 77)], nextId := 6 } 42
  exact ⟨h.1, h.2.1, h.2.2.1, h.2.2.2.1, h.2.2.2.2 5 (by decide)⟩

/-- Running a sequence of Graphics Context operations that is balanced at
depth d consumes exactly the d most recent snapshots' worth of pairing and
leaves the portion of the save stack below depth d untouched: the final
stack is the starting stack with its top d entries dropped. -/
theorem runOps_balanced_saveStack :
    ∀ (ops : List GraphicsOp) (d : Nat) (g : GraphicsState),
      GraphicsOp.balancedFrom d ops = true → d ≤ g.saveStack.length →
      (WindowsGraphics.runOps g ops).saveStack = g.saveStack.drop d := by
  intro ops
  induction ops with
  | nil =>
    intro d g hb _
    have hd : d = 0 := by simpa [GraphicsOp.balancedFrom] using hb
    subst hd
    rfl
  | cons op rest ih =>
    intro d g hb hd
    cases op with
    | save =>
      have hb1 : GraphicsOp.balancedFrom (d + 1) rest = true := hb
      have step : (WindowsGraphics.runOps g (GraphicsOp.save :: rest)) =
          WindowsGraphics.runOps
            { g with saveStack := g.cur :: g.saveStack } rest := rfl
      rw [step, ih (d + 1) _ hb1 (by simp; omega)]
      simp [List.drop_succ_cons]
    | restore =>
      have hb' := hb
      simp only [GraphicsOp.balancedFrom, Bool.and_eq_true,
        decide_eq_true_eq] at hb'
      obtain ⟨hdpos, hb1⟩ := hb'
      cases hs : g.saveStack with
      | nil => rw [hs] at hd; simp at hd; omega
      | cons top tail =>
        have step : (WindowsGraphics.runOps g (GraphicsOp.restore :: rest)) =
            WindowsGraphics.runOps { cur := top, saveStack := tail } rest := by
          show WindowsGraphics.runOps
            (WindowsGraphics.applyOp g GraphicsOp.restore) rest = _
          rw [show WindowsGraphics.applyOp g GraphicsOp.restore =
              { cur := top, saveStack := tail } by
            unfold WindowsGraphics.applyOp
            rw [hs]]
        rw [hs] at hd
        simp only [List.length_cons] at hd
        rw [step, ih (d - 1) _ hb1 (by simp; omega)]
        cases d with
        | zero => omega
        | succ d0 => simp
    | setPen p =>
      have hb1 : GraphicsOp.balancedFrom d rest = true := hb
      have step : (WindowsGraphics.runOps g (GraphicsOp.setPen p :: rest)) =
          WindowsGraphics.runOps
            { g with cur := { g.cur with pen := p } } rest := rfl
      rw [step, ih d _ hb1 (by simpa using hd)]
    | setBrush b =>
      have hb1 : GraphicsOp.balancedFrom d rest = true := hb
      have step : (WindowsGraphics.runOps g (GraphicsOp.setBrush b :: rest)) =
          WindowsGraphics.runOps
            { g with cur := { g.cur with brush := b } } rest := rfl
      rw [step, ih d _ hb1 (by simpa using hd)]
    | setFont f =>
      have hb1 : GraphicsOp.balancedFrom d rest = true := hb
      have step : (WindowsGraphics.runOps g (GraphicsOp.setFont f :: rest)) =
          WindowsGraphics.runOps
            { g with cur := { g.cur with font := f } } rest := rfl
      rw [step, ih d _ hb1 (by simpa using hd)]

/-- C3: for every paired save()/restore() sequence on a Graphics Context —
a save, any balanced sequence of operations, then the matching restore —
the drawing state (current pen, brush, and font selection, together with the
snapshot stack) after restore() equals the state immediately before the
matching save(). -/
theorem graphics_save_restore_roundtrip
    (g : GraphicsState) (mid : List GraphicsOp)
    (hbal : GraphicsOp.balancedFrom 0 mid = true) :
    WindowsGraphics.applyOp
      (WindowsGraphics.runOps (WindowsGraphics.applyOp g GraphicsOp.save) mid)
      GraphicsOp.restore = g := by
  have h1 := runOps_balanced_saveStack mid 0
    (WindowsGraphics.applyOp g GraphicsOp.save) hbal (Nat.zero_le _)
  simp only [WindowsGraphics.applyOp, List.drop_zero] at h1
  simp [WindowsGraphics.applyOp, h1]

/-- Witness for C3: a balanced middle sequence (its own save/restore pair
around pen and font changes), wrapped in an outer save/restore, brings the
context back to exactly its initial state. -/
theorem graphics_save_restore_roundtrip_witness :
    GraphicsOp.balancedFrom 0
      [GraphicsOp.setPen 9, GraphicsOp.save, GraphicsOp.setFont 3,
       GraphicsOp.restore, GraphicsOp.setBrush 7] = true ∧
    WindowsGraphics.applyOp
      (WindowsGraphics.runOps
        (WindowsGraphics.applyOp
          ({ cur := { pen := 1, brush := 2, font := 3 }, saveStack := [] } :
            GraphicsState) GraphicsOp.save)
        [GraphicsOp.setPen 9, GraphicsOp.save, GraphicsOp.setFont 3,
         GraphicsOp.restore, GraphicsOp.setBrush 7])
      GraphicsOp.restore =
      { cur := { pen := 1, brush := 2, font := 3 }, saveStack := [] } :=
  ⟨by decide,
   graphics_save_restore_roundtrip
     { cur := { pen := 1, brush := 2, font := 3 }, saveStack := [] }
     [GraphicsOp.setPen 9, GraphicsOp.save, GraphicsOp.setFont 3,
      GraphicsOp.restore, GraphicsOp.setBrush 7]
     (by decide)⟩

/-- A successful positional read from the adapter table is within range. -/
theorem getD_some_lt_length :
    ∀ (l : List (Option Nat)) (i : Nat) (h : Nat),
      l.getD i none = some h → i < l.length := by
  intro l
  induction l with
  | nil => intro i h hg; simp [List.getD] at hg
  | cons x rest ih =>
    intro i h hg
    cases i with
    | zero => simp
    | succ j =>
      have : rest.getD j none = some h := hg
      have := ih j h this
      simp
      omega

/-- A successful positional read from the adapter table yields a member. -/
theorem getD_some_mem :
    ∀ (l : List (Option Nat)) (i : Nat) (h : Nat),
      l.getD i none = some h → some h ∈ l := by
  intro l
  induction l with
  | nil => intro i h hg; simp [List.getD] at hg
  | cons x rest ih =>
    intro i h hg
    cases i with
    | zero =>
      have : x = some h := hg
      subst this
      exact List.mem_cons_self _ _
    | succ j => exact List.mem_cons_of_mem _ (ih j h hg)

/-- Reading back an in-range slot just written. -/
theorem getD_set_self :
    ∀ (l : List (Option Nat)) (i : Nat) (v : Option Nat),
      i < l.length → (l.set i v).getD i none = v := by
  intro l
  induction l with
  | nil => intro i v hi; simp at hi
  | cons x rest ih =>
    intro i v hi
    cases i with
    | zero => rfl
    | succ j =>
      have : j < rest.length := by simp at hi; omega
      exact ih j v this

/-- Writing a fresh handle into a NULL slot adds exactly one occurrence of
that handle to the table and disturbs no other count. -/
theorem count_set_some_of_getD_none :
    ∀ (l : List (Option Nat)) (i n h : Nat),
      i < l.length → l.getD i none = none →
      (l.set i (some n)).count (some h) =
        l.count (some h) + (if h = n then 1 else 0) := by
  intro l
  induction l with
  | nil => intro i n h hi _; simp at hi
  | cons x rest ih =>
    intro i n h hi hg
    cases i with
    | zero =>
      have hx : x = none := hg
      subst hx
      simp only [List.set_cons_zero, List.count_cons]
      by_cases hn : h = n
      · subst hn
        simp
      · simp [hn, Option.some.injEq]
        intro heq
        omega
    | succ j =>
      have hj : j < rest.length := by simp at hi; omega
      have hgj : rest.getD j none = none := hg
      simp only [List.set_cons_succ, List.count_cons]
      rw [ih j n h hj hgj]
      omega

/-- Nulling a slot that held handle hd removes exactly one occurrence of hd
from the table and disturbs no other count. -/
theorem count_set_none_of_getD_some :
    ∀ (l : List (Option Nat)) (i hd h : Nat),
      l.getD i none = some hd →
      (l.set i none).count (some h) + (if h = hd then 1 else 0) =
        l.count (some h) := by
  intro l
  induction l with
  | nil => intro i hd h hg; simp [List.getD] at hg
  | cons x rest ih =>
    intro i hd h hg
    cases i with
    | zero =>
      have hx : x = some hd := hg
      subst hx
      simp only [List.set_cons_zero, List.count_cons]
      by_cases hn : h = hd
      · subst hn
        simp
      · simp [hn, Option.some.injEq]
        intro heq
        omega
    | succ j =>
      have hgj : rest.getD j none = some hd := hg
      simp only [List.set_cons_succ, List.count_cons]
      rw [← ih j hd h hgj]
      omega

/-- Membership in the adapter table is a positive handle count. -/
theorem mem_iff_count_pos :
    ∀ (l : List (Option Nat)) (h : Nat),
      some h ∈ l ↔ 0 < l.count (some h) := by
  intro l h
  exact List.count_pos_iff.symm

/-- Handle values sit in the adapter table exactly as the non-NULL entries
of its slots. -/
theorem mem_filterMap_id :
    ∀ (l : List (Option Nat)) (h : Nat), h ∈ l.filterMap id ↔ some h ∈ l := by
  intro l h
  simp [List.mem_filterMap]

/-- Destroying an adapter whose handle field is NULL changes nothing. -/
theorem destroy_no_handle :
    ∀ (s : AdapterSystem) (i : Nat),
      s.handles.getD i none = none → s.destroy i = s := by
  intro s i hg
  unfold AdapterSystem.destroy
  rw [hg]

/-- C1: the adapter-table invariant — every native handle field is either
NULL (not yet materialized) or refers to exactly one live native object
never shared with another adapter — is preserved by materialize() and by
destroying the bound Logical Widget, and destroying a materialized adapter
releases its handle exactly once: the release is recorded exactly once, the
native object is no longer live, the handle field is NULL afterwards, and a
second destroy changes nothing (no double free, no leak). -/
theorem adapter_handle_unique_release
    (s : AdapterSystem) (i : Nat) (hwf : s.wf) :
    (s.materialize i).wf ∧ (s.destroy i).wf ∧
    (∀ hd, s.handleAt i = some hd →
      (s.destroy i).releaseLog.count hd = 1 ∧
      hd ∉ (s.destroy i).liveObjects ∧
      (s.destroy i).handleAt i = none ∧
      (s.destroy i).destroy i = s.destroy i) := by
  obtain ⟨hH, hL, hN, hR⟩ := hwf
  refine ⟨?_, ?_, ?_⟩
  · -- materialize preserves the invariant
    by_cases hi : i < s.handles.length
    · cases hg : s.handles.getD i none with
      | some v =>
        have heq : s.materialize i = s := by
          unfold AdapterSystem.materialize
          rw [if_pos hi, hg]
        rw [heq]
        exact ⟨hH, hL, hN, hR⟩
      | none =>
        have heq : s.materialize i =
            { handles := s.handles.set i (some s.nextHandle)
              liveObjects := s.nextHandle :: s.liveObjects
              releaseLog := s.releaseLog
              nextHandle := s.nextHandle + 1 } := by
          unfold AdapterSystem.materialize
          rw [if_pos hi, hg]
        rw [heq]
        simp only [AdapterSystem.wf]
        refine ⟨?_, ?_, ?_, ?_⟩
        · intro h hmem
          rw [mem_filterMap_id] at hmem
          have hcnt := count_set_some_of_getD_none s.handles i s.nextHandle h hi hg
          have hpos : 0 < (s.handles.set i (some s.nextHandle)).count (some h) :=
            (mem_iff_count_pos _ _).mp hmem
          by_cases hn : h = s.nextHandle
          · subst hn
            have hnotin : some s.nextHandle ∉ s.handles := by
              intro hmem2
              have := (hH _ ((mem_filterMap_id _ _).mpr hmem2)).2.2.2
              omega
            have hc0 : s.handles.count (some s.nextHandle) = 0 :=
              List.count_eq_zero.mpr hnotin
            refine ⟨by rw [hcnt, hc0]; simp, List.mem_cons_self _ _, ?_, by omega⟩
            apply List.count_eq_zero.mpr
            intro hmem2
            have := hR _ hmem2
            omega
          · have hcnt' : (s.handles.set i (some s.nextHandle)).count (some h) =
                s.handles.count (some h) := by
              rw [hcnt, if_neg hn]
              omega
            have hmemold : some h ∈ s.handles := by
              rw [mem_iff_count_pos]
              omega
            obtain ⟨hc1, hlv, hlog, hlt⟩ :=
              hH h ((mem_filterMap_id _ _).mpr hmemold)
            exact ⟨by rw [hcnt', hc1], List.mem_cons_of_mem _ hlv, hlog, by omega⟩
        · intro h hmem
          rcases List.mem_cons.mp hmem with h1 | h1
          · omega
          · have := hL h h1
            omega
        · refine List.nodup_cons.mpr ⟨?_, hN⟩
          intro hmem
          have := hL _ hmem
          omega
        · intro h hmem
          have := hR h hmem
          omega
    · have heq : s.materialize i = s := by
        unfold AdapterSystem.materialize
        rw [if_neg hi]
      rw [heq]
      exact ⟨hH, hL, hN, hR⟩
  · -- destroy preserves the invariant
    cases hg : s.handles.getD i none with
    | none =>
      rw [destroy_no_handle s i hg]
      exact ⟨hH, hL, hN, hR⟩
    | some hd0 =>
      have heq : s.destroy i =
          { handles := s.handles.set i none
            liveObjects := s.liveObjects.filter (fun x => decide (x ≠ hd0))
            releaseLog := hd0 :: s.releaseLog
            nextHandle := s.nextHandle } := by
        unfold AdapterSystem.destroy
        rw [hg]
      have hmem0 : some hd0 ∈ s.handles := getD_some_mem s.handles i hd0 hg
      obtain ⟨hc1, hlv, hlog, hlt⟩ :=
        hH hd0 ((mem_filterMap_id _ _).mpr hmem0)
      rw [heq]
      simp only [AdapterSystem.wf]
      refine ⟨?_, ?_, ?_, ?_⟩
      · intro h hmem
        rw [mem_filterMap_id] at hmem
        have hcnt := count_set_none_of_getD_some s.handles i hd0 h hg
        have hpos : 0 < (s.handles.set i none).count (some h) :=
          (mem_iff_count_pos _ _).mp hmem
        have hne : h ≠ hd0 := by
          intro he
          subst he
          rw [if_pos rfl] at hcnt
          omega
        rw [if_neg hne] at hcnt
        have hmemold : some h ∈ s.handles := by
          rw [mem_iff_count_pos]
          omega
        obtain ⟨hc1h, hlvh, hlogh, hlth⟩ :=
          hH h ((mem_filterMap_id _ _).mpr hmemold)
        refine ⟨by omega, ?_, ?_, hlth⟩
        · exact List.mem_filter.mpr ⟨hlvh, by simp [hne]⟩
        · simp [List.count_cons, hne, hlogh]
      · intro h hmem
        exact hL h (List.mem_filter.mp hmem).1
      · exact hN.filter _
      · intro h hmem
        rcases List.mem_cons.mp hmem with h1 | h1
        · omega
        · exact hR h h1
  · -- destroying a materialized adapter releases its handle exactly once
    intro hd hhd
    have hg : s.handles.getD i none = some hd := hhd
    have heq : s.destroy i =
        { handles := s.handles.set i none
          liveObjects := s.liveObjects.filter (fun x => decide (x ≠ hd))
          releaseLog := hd :: s.releaseLog
          nextHandle := s.nextHandle } := by
      unfold AdapterSystem.destroy
      rw [hg]
    have hmem0 : some hd ∈ s.handles := getD_some_mem s.handles i hd hg
    obtain ⟨hc1, hlv, hlog, hlt⟩ := hH hd ((mem_filterMap_id _ _).mpr hmem0)
    have hafter : (s.destroy i).handles.getD i none = none := by
      rw [heq]
      exact getD_set_self s.handles i none (getD_some_lt_length s.handles i hd hg)
    refine ⟨?_, ?_, hafter, destroy_no_handle _ i hafter⟩
    · rw [heq]
      simp [List.count_cons, hlog]
    · rw [heq]
      intro hmem
      have := (List.mem_filter.mp hmem).2
      simp at this

/-- Witness for C1: a two-slot adapter table satisfying the invariant;
materializing the empty slot and destroying the bound widget of the full
slot both preserve it, and the destroy of slot 0 (handle 0) logs exactly one
release, kills the native object, nulls the field, and is idempotent. -/
theorem adapter_handle_unique_release_witness :
    ({ handles := [some 0, none], liveObjects := [0], releaseLog := [],
       nextHandle := 1 } : AdapterSystem).wf ∧
    (AdapterSystem.materialize
      { handles := [some 0, none], liveObjects := [0], releaseLog := [],
        nextHandle := 1 } 0).wf ∧
    (AdapterSystem.destroy
      { handles := [some 0, none], liveObjects := [0], releaseLog := [],
        nextHandle := 1 } 0).wf ∧
    ((AdapterSystem.destroy
      { handles := [some 0, none], liveObjects := [0], releaseLog := [],
        nextHandle := 1 } 0).releaseLog.count 0 = 1 ∧
     (0 ∉ (AdapterSystem.destroy
      { handles := [some 0, none], liveObjects := [0], releaseLog := [],
        nextHandle := 1 } 0).liveObjects) ∧
     (AdapterSystem.destroy
      { handles := [some 0, none], liveObjects := [0], releaseLog := [],
        nextHandle := 1 } 0).handleAt 0 = none ∧
     ((AdapterSystem.destroy
      { handles := [some 0, none], liveObjects := [0], releaseLog := [],
        nextHandle := 1 } 0).destroy 0 =
       AdapterSystem.destroy
        { handles := [some 0, none], liveObjects := [0], releaseLog := [],
          nextHandle := 1 } 0)) := by
  have h := adapter_handle_unique_release
    { handles := [some 0, none], liveObjects := [0], releaseLog := [],
      nextHandle := 1 } 0 (by decide)
  exact ⟨by decide, h.1, h.2.1, h.2.2 0 (by decide)⟩
